import Mathlib

/-!
Verification of the ChronoCiv sprite generator (`src/Tools/generate_sprites.py`).

The script synthesizes pixel grids of symbolic color-name tokens via four region
classifiers, resolves tokens against a color map built from an optional era
palette, and rasterizes into an RGBA image whose pixels default to fully
transparent `(0, 0, 0, 0)`.  This file embeds the grid synthesis and
palette-resolution logic (the only algorithmic content) as executable Lean
definitions and proves the specified properties about them.  Filesystem and PNG
encoding are external collaborators and are not modelled; the image buffer is
modelled up to the point where it is handed to the encoder.
-/

set_option maxHeartbeats 1000000
set_option linter.unusedVariables false

namespace ChronoCiv

/-- An RGBA quadruple, each channel `0..255`.  PIL images here are
`width × height` arrays of these, default-initialized to `(0,0,0,0)`. -/
structure RGBA where
  r : Nat
  g : Nat
  b : Nat
  a : Nat
deriving DecidableEq, Repr

/-- A value stored in the resolution table (`color_map` in the source).  The
fixed entries are concrete RGBA quadruples; the entries flattened out of a
palette are the hex strings themselves (`color_map[color] = color` maps each
color string to itself, not to a decoded tuple). -/
inductive ColorValue where
  | rgba : RGBA → ColorValue
  | name : String → ColorValue
deriving DecidableEq, Repr

/-- The transparent default pixel of a freshly created image. -/
def transparentPixel : ColorValue := .rgba ⟨0, 0, 0, 0⟩

/-- A palette maps category names to ordered lists of hex color strings;
modelled as an association list in Python-dict insertion order. -/
abbrev Palette := List (String × List String)

/-- Python-dict assignment `m[k] = v`: overwrite the value in place if the key
is present, otherwise append the new binding. -/
def dictInsert (m : List (String × ColorValue)) (k : String) (v : ColorValue) :
    List (String × ColorValue) :=
  if m.any (fun p => p.1 == k) then
    m.map (fun p => if p.1 == k then (p.1, v) else p)
  else
    m ++ [(k, v)]

/-- Python-dict lookup `m[k]` / `k in m`: the value bound to the key, if any. -/
def dictLookup (m : List (String × ColorValue)) (k : String) : Option ColorValue :=
  (m.find? (fun p => p.1 == k)).map (fun p => p.2)

/-- `create_pixel_image` lines 76-96: build the token resolution table.  With a
palette, every color of every category becomes a self-mapping string entry,
then six fixed entries are added; without a palette, a small fixed default map
is used. -/
def buildColorMap (palette : Option Palette) : List (String × ColorValue) :=
  match palette with
  | some p =>
    let m := p.foldl (fun acc cat =>
      cat.2.foldl (fun acc2 color => dictInsert acc2 color (.name color)) acc) []
    let m := dictInsert m "transparent" (.rgba ⟨0, 0, 0, 0⟩)
    let m := dictInsert m "#000000" (.rgba ⟨0, 0, 0, 255⟩)
    let m := dictInsert m "#FFFFFF" (.rgba ⟨255, 255, 255, 255⟩)
    let m := dictInsert m "#2F2F2F" (.rgba ⟨47, 47, 47, 255⟩)
    let m := dictInsert m "stone" (.rgba ⟨128, 128, 128, 255⟩)
    let m := dictInsert m "terrain" (.rgba ⟨139, 69, 19, 255⟩)
    m
  | none =>
    [("transparent", .rgba ⟨0, 0, 0, 0⟩),
     ("#8B4513", .rgba ⟨139, 69, 19, 255⟩),
     ("#228B22", .rgba ⟨34, 139, 34, 255⟩),
     ("#D2B48C", .rgba ⟨210, 180, 140, 255⟩),
     ("#2F2F2F", .rgba ⟨47, 47, 47, 255⟩),
     ("stone", .rgba ⟨128, 128, 128, 255⟩),
     ("terrain", .rgba ⟨139, 69, 19, 255⟩)]

/-- Element of a 2-D grid at row `y`, column `x`, if both are in bounds;
mirrors the guard `y < len(pixels) and x < len(pixels[y])`. -/
def gridGet (g : List (List α)) (y x : Nat) : Option α :=
  g[y]?.bind (fun row => row[x]?)

/-- `create_pixel_image` lines 98-108: a `width × height` RGBA image whose
pixels default to transparent; the nested loop runs `y` over `range height`
(outer) and `x` over `range width` (inner), i.e. row-major top-to-bottom,
left-to-right.  A pixel is assigned only when its coordinate is inside the
token grid and its token is a key of the resolution table. -/
def create_pixel_image (width height : Nat) (pixels : List (List String))
    (palette : Option Palette) : List (List ColorValue) :=
  let color_map := buildColorMap palette
  (List.range height).map (fun y =>
    (List.range width).map (fun x =>
      match gridGet pixels y x with
      | none => transparentPixel
      | some color_name =>
        match dictLookup color_map color_name with
        | some v => v
        | none => transparentPixel))

/-- `generate_npc_base_sprite` lines 110-128: row bands `y<4` head (`skin`),
`y<8` neck (`skin`), `y<16` body (`clothing`), else legs (`clothing`);
the column is never consulted. -/
def generate_npc_base_sprite (size : Nat × Nat) : List (List String) :=
  let height := size.2
  (List.range height).map (fun y =>
    (List.range size.1).map (fun _x =>
      if y < 4 then "skin"
      else if y < 8 then "skin"
      else if y < 16 then "clothing"
      else "clothing"))

/-- `generate_building_sprite` lines 130-146: row bands `y<4` roof
(`terrain`), `y < height-4` walls (`stone`), else foundation (`#2F2F2F`).
The `building_type` argument is accepted but unused.  The comparison with
`height - 4` is over the integers, as in Python. -/
def generate_building_sprite (building_type : String) (size : Nat × Nat) :
    List (List String) :=
  let _ := building_type
  let height := size.2
  (List.range height).map (fun (y : Nat) =>
    (List.range size.1).map (fun (_x : Nat) =>
      if (y : Int) < 4 then "terrain"
      else if (y : Int) < (height : Int) - 4 then "stone"
      else "#2F2F2F"))

/-- `generate_terrain_tile` lines 148-159: every cell is the placeholder token
`terrain_base`. -/
def generate_terrain_tile (size : Nat × Nat) : List (List String) :=
  (List.range size.2).map (fun _y =>
    (List.range size.1).map (fun _x => "terrain_base"))

/-- `generate_ui_icon` lines 161-175: a cell is `border` when within a 2-pixel
margin of any edge (`y < 2 or y >= height-2 or x < 2 or x >= width-2`, integer
arithmetic), else `background`.  The `icon_type` argument is unused. -/
def generate_ui_icon (icon_type : String) (size : Nat × Nat) :
    List (List String) :=
  let _ := icon_type
  let width := size.1
  let height := size.2
  (List.range height).map (fun (y : Nat) =>
    (List.range width).map (fun (x : Nat) =>
      if (y : Int) < 2 ∨ (height : Int) - 2 ≤ (y : Int) ∨
         (x : Int) < 2 ∨ (width : Int) - 2 ≤ (x : Int) then "border"
      else "background"))

/-- The `PALETTES` table, lines 14-63: one palette per era, eras in
chronological insertion order. -/
def PALETTES : List (String × Palette) :=
  [("stone_age",
    [("skin", ["#D4A574", "#C49A6C", "#B8956A"]),
     ("clothing", ["#8B4513", "#654321", "#4A3728"]),
     ("hair", ["#2C1810", "#3D2314", "#1A0F0A"]),
     ("terrain", ["#7CFC00", "#228B22", "#808080", "#8B7355"])]),
   ("ancient",
    [("skin", ["#F5D0A9", "#E5BE98", "#D4A574"]),
     ("clothing", ["#E6C288", "#D4B896", "#C4A876"]),
     ("hair", ["#1A1A1A", "#3D3D3D", "#4A4A4A"]),
     ("terrain", ["#DEB887", "#D2B48C", "#BC8F8F", "#8B7355"])]),
   ("classical",
    [("skin", ["#F5DEB3", "#FFE4C4", "#DEB887"]),
     ("clothing", ["#FFFFFF", "#F5F5DC", "#E8E8D8"]),
     ("hair", ["#FFD700", "#DAA520", "#B8860B"]),
     ("terrain", ["#F5F5F5", "#D3D3D3", "#C0C0C0", "#A9A9A9"])]),
   ("medieval",
    [("skin", ["#F5DEB3", "#DEB887", "#D2B48C"]),
     ("clothing", ["#8B0000", "#4A0080", "#000080", "#2F4F4F"]),
     ("hair", ["#2F2F2F", "#4A4A4A", "#696969"]),
     ("terrain", ["#8B4513", "#A0522D", "#6B8E23", "#556B2F"])]),
   ("renaissance",
    [("skin", ["#FFE4C4", "#FFDAB9", "#F5DEB3"]),
     ("clothing", ["#800020", "#4B0082", "#00008B", "#006400"]),
     ("hair", ["#2F2F2F", "#4A3728", "#8B4513"]),
     ("terrain", ["#DAA520", "#B8860B", "#CD853F", "#D2691E"])]),
   ("industrial",
    [("skin", ["#FFE4C4", "#F5DEB3", "#DEB887"]),
     ("clothing", ["#2F2F2F", "#4A4A4A", "#696969", "#808080"]),
     ("hair", ["#1A1A1A", "#2F2F2F", "#4A4A4A"]),
     ("terrain", ["#696969", "#808080", "#A9A9A9", "#C0C0C0"])]),
   ("modern",
    [("skin", ["#FFE4C4", "#F5DEB3", "#DEB887", "#C4A574"]),
     ("clothing", ["#000080", "#8B0000", "#2F4F4F", "#4A0080"]),
     ("hair", ["#1A1A1A", "#4A4A4A", "#8B4513", "#D2B48C"]),
     ("terrain", ["#808080", "#A9A9A9", "#C0C0C0", "#D3D3D3"])]),
   ("future",
    [("skin", ["#E8E8E8", "#D0D0D0", "#B8B8B8"]),
     ("clothing", ["#00FFFF", "#FF00FF", "#FFFF00", "#00FF00"]),
     ("hair", ["#00CED1", "#9400D3", "#00FF00", "#FF1493"]),
     ("terrain", ["#1a1a2e", "#16213e", "#0f3460", "#533483"])])]

/-- Line 66. -/
def ANIMATIONS : List String := ["idle", "walk", "run", "work", "attack", "sleep"]

/-- Line 69. -/
def DIRECTIONS : List String := ["up", "down", "left", "right"]

/-- The era names, in the order `PALETTES.keys()` iterates them. -/
def ERAS : List String := PALETTES.map Prod.fst

/-- The palette the driver passes for a given era (`PALETTES[era]`). -/
def palette_of (era : String) : Option Palette :=
  (PALETTES.find? (fun p => p.1 == era)).map (fun p => p.2)

/-- One character image as produced by the NPC loop of `generate_all_sprites`
(lines 196-212): for each era, animation and direction the driver calls
`generate_npc_base_sprite()` at the default size `(16, 24)` and rasterizes it
at 16×24 against that era's palette.  The animation and direction determine
only the output path, never the pixels. -/
def npc_image (era animation direction : String) : List (List ColorValue) :=
  let _ := animation
  let _ := direction
  create_pixel_image 16 24 (generate_npc_base_sprite (16, 24)) (palette_of era)

/-- One building image as produced by the building loop (lines 214-223):
classifier at the default size `(32, 32)`, rasterized at 32×32 with no
palette. -/
def building_image (building : String) : List (List ColorValue) :=
  create_pixel_image 32 32 (generate_building_sprite building (32, 32)) none

/-- One terrain image as produced by the terrain loop (lines 225-233): the
terrain name determines only the file name; the classifier takes the default
size `(16, 16)` and is rasterized at 16×16 with no palette. -/
def terrain_image (terrain : String) : List (List ColorValue) :=
  let _ := terrain
  create_pixel_image 16 16 (generate_terrain_tile (16, 16)) none

/-- One UI icon image as produced by the icon loop (lines 235-244): classifier
at the default size `(16, 16)`, rasterized at 16×16 with no palette. -/
def icon_image (icon : String) : List (List ColorValue) :=
  create_pixel_image 16 16 (generate_ui_icon icon (16, 16)) none

/-- A minimal JSON value model for the atlas descriptor. -/
inductive Json where
  | str : String → Json
  | num : Nat → Json
  | bool : Bool → Json
  | arr : List Json → Json
  | obj : List (String × Json) → Json

/-- Field lookup in a JSON object. -/
def jsonField (j : Json) (key : String) : Option Json :=
  match j with
  | .obj fields => (fields.find? (fun p => p.1 == key)).map (fun p => p.2)
  | _ => none

/-- `create_sprite_atlas_config` lines 249-267: the emitted descriptor.  The
function receives only the output directory (used for the file path) and dumps
a constant object; no record of the generated images flows into it. -/
def create_sprite_atlas_config (output_dir : String) : Json :=
  let _ := output_dir
  .obj [("atlas_name", .str "ChronoCiv_Sprites"),
        ("sprites", .arr []),
        ("packing", .obj [("power_of_two", .bool true),
                          ("padding", .num 2),
                          ("extrude", .num 1)])]

/-- Formalisation of claim C2's reading of the band rules: scan the three
building row-bands in order (`y<4` roof, `4≤y<height-4` wall, `y≥height-4`
foundation) and let the LAST matching condition determine the row's token. -/
def building_row_last_match (height y : Nat) : Option String :=
  [(decide ((y : Int) < 4), "terrain"),
   (decide (4 ≤ (y : Int) ∧ (y : Int) < (height : Int) - 4), "stone"),
   (decide ((height : Int) - 4 ≤ (y : Int)), "#2F2F2F")].foldl
    (fun acc band => if band.1 then some band.2 else acc) none

/-- Element of a grid built as a row-major nested `List.range` map. -/
theorem gridGet_mk {α : Type} (H W : Nat) (f : Nat → Nat → α) (y x : Nat)
    (hy : y < H) (hx : x < W) :
    gridGet ((List.range H).map (fun y => (List.range W).map (fun x => f y x))) y x =
      some (f y x) := by
  simp [gridGet, List.getElem?_map, List.getElem?_range, hy, hx]

/-- Pixel of a rasterized image: the grid token at `(y, x)` resolved through
the color map, or the transparent default when the coordinate is outside the
grid or the token is not a key. -/
theorem create_pixel_image_get (W H : Nat) (pixels : List (List String))
    (pal : Option Palette) (y x : Nat) (hy : y < H) (hx : x < W) :
    gridGet (create_pixel_image W H pixels pal) y x =
      some (match gridGet pixels y x with
            | none => transparentPixel
            | some color_name =>
              match dictLookup (buildColorMap pal) color_name with
              | some v => v
              | none => transparentPixel) := by
  unfold create_pixel_image
  exact gridGet_mk H W (fun y x =>
    match gridGet pixels y x with
    | none => transparentPixel
    | some color_name =>
      match dictLookup (buildColorMap pal) color_name with
      | some v => v
      | none => transparentPixel) y x hy hx

/-- The era list spelled out. -/
theorem eras_eq :
    ERAS = ["stone_age", "ancient", "classical", "medieval", "renaissance",
            "industrial", "modern", "future"] := rfl

/-- Every character image is the all-transparent 16×24 image: the grid tokens
`skin` and `clothing` are never keys of the resolution table built from a
palette, so no pixel is ever assigned. -/
theorem npc_image_const (era animation direction : String) (h : era ∈ ERAS) :
    npc_image era animation direction =
      List.replicate 24 (List.replicate 16 transparentPixel) := by
  rw [show npc_image era animation direction = npc_image era "" "" from rfl]
  rw [eras_eq] at h
  fin_cases h <;> decide

/-- C1: for every era, animation and direction, the produced character image
has exactly the declared dimensions 16×24 and every pixel is fully transparent
(RGBA `(0,0,0,0)`), because the tokens `skin` and `clothing` emitted by the
character classifier are never keys of the resolution table built from the
era's palette. -/
theorem npc_image_dims_and_transparent (era animation direction : String)
    (hera : era ∈ ERAS) (hanim : animation ∈ ANIMATIONS)
    (hdir : direction ∈ DIRECTIONS) :
    (npc_image era animation direction).length = 24 ∧
    (∀ row ∈ npc_image era animation direction, row.length = 16) ∧
    (∀ row ∈ npc_image era animation direction, ∀ p ∈ row,
      p = ColorValue.rgba ⟨0, 0, 0, 0⟩) ∧
    dictLookup (buildColorMap (palette_of era)) "skin" = none ∧
    dictLookup (buildColorMap (palette_of era)) "clothing" = none := by
  rw [npc_image_const era animation direction hera]
  rw [eras_eq] at hera
  fin_cases hera <;>
    exact ⟨by decide, by decide, by decide, by decide, by decide⟩

/-- Witness for C1 at era `stone_age`, animation `idle`, direction `up`. -/
theorem npc_image_dims_and_transparent_witness :
    (npc_image "stone_age" "idle" "up").length = 24 ∧
    (∀ row ∈ npc_image "stone_age" "idle" "up", row.length = 16) ∧
    (∀ row ∈ npc_image "stone_age" "idle" "up", ∀ p ∈ row,
      p = ColorValue.rgba ⟨0, 0, 0, 0⟩) ∧
    dictLookup (buildColorMap (palette_of "stone_age")) "skin" = none ∧
    dictLookup (buildColorMap (palette_of "stone_age")) "clothing" = none :=
  npc_image_dims_and_transparent "stone_age" "idle" "up"
    (by decide) (by decide) (by decide)

/-- C2 counterexample: the claim says that for heights below the threshold
constants the LAST matching band condition determines each row's token; at
size `(32, 6)` row `2` matches both the roof condition `y < 4` and the
foundation condition `y ≥ height - 4 = 2`, and the code (an `if/elif/else`
chain) picks the FIRST one, producing `terrain` where the last-match reading
demands `#2F2F2F`. -/
theorem building_small_band_not_last_match :
    ¬ ∀ (bt : String) (size : Nat × Nat), size.2 < 8 →
        ∀ y, y < size.2 → ∀ x, x < size.1 →
          gridGet (generate_building_sprite bt size) y x =
            building_row_last_match size.2 y := by
  intro h
  exact absurd (h "hut" (32, 6) (by decide) 2 (by decide) 0 (by decide)) (by decide)

/-- C2 (amended): for every size whose height is below the classifier
threshold constants (height under 8), the FIRST matching band condition
determines each row's token, per the `if/elif/else` chain: rows `y < 4` get
`terrain` even where the foundation band `y ≥ height - 4` overlaps them, and
all remaining rows get `#2F2F2F`; no row gets `stone`. -/
theorem building_small_band_first_match (bt : String) (size : Nat × Nat)
    (h8 : size.2 < 8) (y x : Nat) (hy : y < size.2) (hx : x < size.1) :
    gridGet (generate_building_sprite bt size) y x =
      some (if y < 4 then "terrain" else "#2F2F2F") := by
  have hg : gridGet (generate_building_sprite bt size) y x =
      some (if (y : Int) < 4 then "terrain"
            else if (y : Int) < (size.2 : Int) - 4 then "stone" else "#2F2F2F") := by
    unfold generate_building_sprite
    exact gridGet_mk size.2 size.1
      (fun y _x => if (y : Int) < 4 then "terrain"
        else if (y : Int) < (size.2 : Int) - 4 then "stone" else "#2F2F2F")
      y x hy hx
  rw [hg]
  by_cases h4 : y < 4
  · have c1 : (y : Int) < 4 := by omega
    simp [h4, c1]
  · have c1 : ¬ ((y : Int) < 4) := by omega
    have c2 : ¬ ((y : Int) < (size.2 : Int) - 4) := by omega
    simp [h4, c1, c2]

/-- Witness for the amended C2 at size `(32, 6)`: row 5 (foundation overlap)
gets `#2F2F2F`. -/
theorem building_small_band_first_match_witness :
    gridGet (generate_building_sprite "hut" (32, 6)) 5 0 = some "#2F2F2F" := by
  have h := building_small_band_first_match "hut" (32, 6)
    (by decide) 5 0 (by decide) (by decide)
  simpa using h

/-- C3: for every UI icon and every coordinate `(x, y)` of a `W × H` grid, the
icon classifier assigns `border` iff `x < 2 ∨ x ≥ W - 2 ∨ y < 2 ∨ y ≥ H - 2`,
and `background` otherwise. -/
theorem ui_icon_border_iff (icon : String) (W H x y : Nat)
    (hx : x < W) (hy : y < H) :
    (gridGet (generate_ui_icon icon (W, H)) y x = some "border" ↔
      x < 2 ∨ W - 2 ≤ x ∨ y < 2 ∨ H - 2 ≤ y) ∧
    (gridGet (generate_ui_icon icon (W, H)) y x = some "background" ↔
      ¬ (x < 2 ∨ W - 2 ≤ x ∨ y < 2 ∨ H - 2 ≤ y)) := by
  have hg : gridGet (generate_ui_icon icon (W, H)) y x =
      some (if (y : Int) < 2 ∨ (H : Int) - 2 ≤ (y : Int) ∨
               (x : Int) < 2 ∨ (W : Int) - 2 ≤ (x : Int)
            then "border" else "background") := by
    unfold generate_ui_icon
    exact gridGet_mk H W
      (fun y x => if (y : Int) < 2 ∨ (H : Int) - 2 ≤ (y : Int) ∨
          (x : Int) < 2 ∨ (W : Int) - 2 ≤ (x : Int) then "border" else "background")
      y x hy hx
  rw [hg]
  have hs : ("border" : String) ≠ "background" := by decide
  by_cases hc : (y : Int) < 2 ∨ (H : Int) - 2 ≤ (y : Int) ∨
      (x : Int) < 2 ∨ (W : Int) - 2 ≤ (x : Int)
  · rw [if_pos hc]
    have hn : x < 2 ∨ W - 2 ≤ x ∨ y < 2 ∨ H - 2 ≤ y := by omega
    exact ⟨⟨fun _ => hn, fun _ => rfl⟩,
           ⟨fun hbad => absurd (Option.some.inj hbad) hs,
            fun hbad => absurd hn hbad⟩⟩
  · rw [if_neg hc]
    have hn : ¬ (x < 2 ∨ W - 2 ≤ x ∨ y < 2 ∨ H - 2 ≤ y) := by omega
    exact ⟨⟨fun hbad => absurd (Option.some.inj hbad) (fun e => hs e.symm),
            fun hd => absurd hd hn⟩,
           ⟨fun _ => hn, fun _ => rfl⟩⟩

/-- Witness for C3 at `W = H = 16`, `y = 8`: the boundary is exact at
`x ∈ {1, 2, 13, 14}`. -/
theorem ui_icon_border_iff_witness :
    gridGet (generate_ui_icon "food" (16, 16)) 8 1 = some "border" ∧
    gridGet (generate_ui_icon "food" (16, 16)) 8 2 = some "background" ∧
    gridGet (generate_ui_icon "food" (16, 16)) 8 13 = some "background" ∧
    gridGet (generate_ui_icon "food" (16, 16)) 8 14 = some "border" := by
  refine ⟨?_, ?_, ?_, ?_⟩
  · exact (ui_icon_border_iff "food" 16 16 1 8 (by decide) (by decide)).1.mpr (by decide)
  · exact (ui_icon_border_iff "food" 16 16 2 8 (by decide) (by decide)).2.mpr (by decide)
  · exact (ui_icon_border_iff "food" 16 16 13 8 (by decide) (by decide)).2.mpr (by decide)
  · exact (ui_icon_border_iff "food" 16 16 14 8 (by decide) (by decide)).1.mpr (by decide)

/-- C4: for any two building-type names and the same requested size the
generated building images are identical, both at an arbitrary size and at the
driver's 32×32 call: the building classifier never consults the name. -/
theorem building_image_ignores_name (name1 name2 : String) (size : Nat × Nat) :
    create_pixel_image size.1 size.2 (generate_building_sprite name1 size) none =
      create_pixel_image size.1 size.2 (generate_building_sprite name2 size) none ∧
    building_image name1 = building_image name2 :=
  ⟨rfl, rfl⟩

/-- C5: the terrain classifier assigns the placeholder token `terrain_base` to
every cell at every size; `terrain_base` is not a key of the default
resolution map, so terrain tiles are identical regardless of terrain name and
every rasterized terrain pixel is left transparent. -/
theorem terrain_tile_placeholder (size : Nat × Nat) (y x : Nat)
    (hy : y < size.2) (hx : x < size.1) (name1 name2 : String) :
    gridGet (generate_terrain_tile size) y x = some "terrain_base" ∧
    dictLookup (buildColorMap none) "terrain_base" = none ∧
    terrain_image name1 = terrain_image name2 ∧
    (∀ row ∈ terrain_image name1, ∀ p ∈ row, p = ColorValue.rgba ⟨0, 0, 0, 0⟩) := by
  refine ⟨?_, by decide, rfl, ?_⟩
  · unfold generate_terrain_tile
    exact gridGet_mk size.2 size.1 (fun _y _x => "terrain_base") y x hy hx
  · rw [show terrain_image name1 = terrain_image "" from rfl]
    decide

/-- Witness for C5 at size `(16, 16)`, cell `(3, 3)`, names `grassland` and
`desert`. -/
theorem terrain_tile_placeholder_witness :
    gridGet (generate_terrain_tile (16, 16)) 3 3 = some "terrain_base" ∧
    dictLookup (buildColorMap none) "terrain_base" = none ∧
    terrain_image "grassland" = terrain_image "desert" ∧
    (∀ row ∈ terrain_image "grassland", ∀ p ∈ row,
      p = ColorValue.rgba ⟨0, 0, 0, 0⟩) :=
  terrain_tile_placeholder (16, 16) 3 3 (by decide) (by decide) "grassland" "desert"

/-- C6: in the default 32×32 building grid each row is uniform across columns
and banded as: `y < 4` roof `terrain`, `4 ≤ y < 28` wall `stone`, `y ≥ 28`
foundation `#2F2F2F`. -/
theorem building_grid_bands (bt : String) (y x : Nat)
    (hy : y < 32) (hx : x < 32) :
    (y < 4 → gridGet (generate_building_sprite bt (32, 32)) y x = some "terrain") ∧
    (4 ≤ y → y < 28 → gridGet (generate_building_sprite bt (32, 32)) y x = some "stone") ∧
    (28 ≤ y → gridGet (generate_building_sprite bt (32, 32)) y x = some "#2F2F2F") := by
  have hg : gridGet (generate_building_sprite bt (32, 32)) y x =
      some (if (y : Int) < 4 then "terrain"
            else if (y : Int) < ((32 : Nat) : Int) - 4 then "stone" else "#2F2F2F") := by
    unfold generate_building_sprite
    exact gridGet_mk 32 32
      (fun y _x => if (y : Int) < 4 then "terrain"
        else if (y : Int) < ((32 : Nat) : Int) - 4 then "stone" else "#2F2F2F")
      y x hy hx
  rw [hg]
  refine ⟨fun h4 => ?_, fun h4 h28 => ?_, fun h28 => ?_⟩
  · have c1 : (y : Int) < 4 := by omega
    rw [if_pos c1]
  · have c1 : ¬ ((y : Int) < 4) := by omega
    have c2 : (y : Int) < ((32 : Nat) : Int) - 4 := by omega
    rw [if_neg c1, if_pos c2]
  · have c1 : ¬ ((y : Int) < 4) := by omega
    have c2 : ¬ ((y : Int) < ((32 : Nat) : Int) - 4) := by omega
    rw [if_neg c1, if_neg c2]

/-- Witness for C6 at rows 0, 10 and 30 of the `castle` grid. -/
theorem building_grid_bands_witness :
    gridGet (generate_building_sprite "castle" (32, 32)) 0 5 = some "terrain" ∧
    gridGet (generate_building_sprite "castle" (32, 32)) 10 5 = some "stone" ∧
    gridGet (generate_building_sprite "castle" (32, 32)) 30 5 = some "#2F2F2F" :=
  ⟨(building_grid_bands "castle" 0 5 (by decide) (by decide)).1 (by decide),
   (building_grid_bands "castle" 10 5 (by decide) (by decide)).2.1 (by decide) (by decide),
   (building_grid_bands "castle" 30 5 (by decide) (by decide)).2.2 (by decide)⟩

/-- C7: the rasterizer (whose embedding scans row-major: the outer map runs
`y` top-to-bottom, the inner map runs `x` left-to-right) never fails on a grid
smaller than the declared image dimensions: it always produces exactly `H`
rows of `W` pixels, and any pixel whose coordinate lies outside the grid, or
whose token is not a key of the resolution table, is left at the transparent
default `(0,0,0,0)`. -/
theorem create_pixel_image_tolerant (W H : Nat) (pixels : List (List String))
    (pal : Option Palette) :
    (create_pixel_image W H pixels pal).length = H ∧
    (∀ row ∈ create_pixel_image W H pixels pal, row.length = W) ∧
    (∀ y x, y < H → x < W →
      (∀ tok, gridGet pixels y x = some tok →
        dictLookup (buildColorMap pal) tok = none) →
      gridGet (create_pixel_image W H pixels pal) y x = some transparentPixel) := by
  refine ⟨by simp [create_pixel_image], ?_, ?_⟩
  · intro row hrow
    unfold create_pixel_image at hrow
    simp only [List.mem_map, List.mem_range] at hrow
    obtain ⟨a, -, rfl⟩ := hrow
    simp
  · intro y x hy hx h
    rw [create_pixel_image_get W H pixels pal y x hy hx]
    cases hpix : gridGet pixels y x with
    | none => rfl
    | some color_name =>
      show some (match dictLookup (buildColorMap pal) color_name with
                 | some v => v
                 | none => transparentPixel) = some transparentPixel
      rw [h color_name hpix]

/-- Witness for C7: a 4×4 image over a 1×1 grid; the in-bounds cell holds a
token that is not a key, and `(2, 3)` is outside the grid — both are
transparent, and the image is 4×4. -/
theorem create_pixel_image_tolerant_witness :
    (create_pixel_image 4 4 [["terrain_base"]] none).length = 4 ∧
    gridGet (create_pixel_image 4 4 [["terrain_base"]] none) 0 0 =
      some transparentPixel ∧
    gridGet (create_pixel_image 4 4 [["terrain_base"]] none) 2 3 =
      some transparentPixel := by
  refine ⟨(create_pixel_image_tolerant 4 4 [["terrain_base"]] none).1, ?_, ?_⟩
  · refine (create_pixel_image_tolerant 4 4 [["terrain_base"]] none).2.2 0 0
      (by decide) (by decide) ?_
    intro tok h
    have htok := Option.some.inj (show some "terrain_base" = some tok from h)
    rw [← htok]
    decide
  · refine (create_pixel_image_tolerant 4 4 [["terrain_base"]] none).2.2 2 3
      (by decide) (by decide) ?_
    intro tok h
    exact Option.noConfusion (show (none : Option String) = some tok from h)

/-- C8: the emitted atlas descriptor is exactly the fixed object
`{"atlas_name": "ChronoCiv_Sprites", "sprites": [], "packing":
{"power_of_two": true, "padding": 2, "extrude": 1}}`; its `sprites` array is
empty for every invocation — no record of the generated images flows into the
function. -/
theorem atlas_config_constant (output_dir : String) :
    create_sprite_atlas_config output_dir =
      Json.obj [("atlas_name", Json.str "ChronoCiv_Sprites"),
                ("sprites", Json.arr []),
                ("packing", Json.obj [("power_of_two", Json.bool true),
                                      ("padding", Json.num 2),
                                      ("extrude", Json.num 1)])] ∧
    jsonField (create_sprite_atlas_config output_dir) "sprites" =
      some (Json.arr []) :=
  ⟨rfl, rfl⟩

/-- C9 counterexample: the claim asserts that some pair of distinct eras
produces differing character images; in fact every era produces the same
all-transparent image, because `skin` and `clothing` never resolve against any
palette. -/
theorem npc_image_no_era_variation :
    ¬ ∃ e1 ∈ ERAS, ∃ e2 ∈ ERAS, e1 ≠ e2 ∧
        ∃ a ∈ ANIMATIONS, ∃ d ∈ DIRECTIONS, npc_image e1 a d ≠ npc_image e2 a d := by
  rintro ⟨e1, he1, e2, he2, -, a, -, d, -, hdiff⟩
  exact hdiff ((npc_image_const e1 a d he1).trans (npc_image_const e2 a d he2).symm)

/-- C9 (amended): the character sprite content is identical for every
direction, every animation AND every era — all 192 produced character images
are equal (the resolver defect leaves them all fully transparent), so no axis,
not even the era palette, changes the pixels. -/
theorem npc_image_invariant_under_all_axes (e1 e2 a1 a2 d1 d2 : String)
    (he1 : e1 ∈ ERAS) (he2 : e2 ∈ ERAS)
    (ha1 : a1 ∈ ANIMATIONS) (ha2 : a2 ∈ ANIMATIONS)
    (hd1 : d1 ∈ DIRECTIONS) (hd2 : d2 ∈ DIRECTIONS) :
    npc_image e1 a1 d1 = npc_image e2 a2 d2 :=
  (npc_image_const e1 a1 d1 he1).trans (npc_image_const e2 a2 d2 he2).symm

/-- Witness for the amended C9: `stone_age` walking left equals `future`
sleeping right. -/
theorem npc_image_invariant_under_all_axes_witness :
    npc_image "stone_age" "walk" "left" = npc_image "future" "sleep" "right" :=
  npc_image_invariant_under_all_axes "stone_age" "future" "walk" "sleep" "left" "right"
    (by decide) (by decide) (by decide) (by decide) (by decide) (by decide)

/-- C10: every generated UI icon is fully transparent: the icon classifier
emits only the tokens `border` and `background`, the driver rasterizes icons
without a palette, and neither token is a key of the palette-less default
resolution map, so every icon pixel stays at the transparent default. -/
theorem icon_image_all_transparent (icon : String) :
    (∀ row ∈ generate_ui_icon icon (16, 16), ∀ tok ∈ row,
      tok = "border" ∨ tok = "background") ∧
    dictLookup (buildColorMap none) "border" = none ∧
    dictLookup (buildColorMap none) "background" = none ∧
    (∀ row ∈ icon_image icon, ∀ p ∈ row, p = ColorValue.rgba ⟨0, 0, 0, 0⟩) := by
  rw [show generate_ui_icon icon (16, 16) = generate_ui_icon "" (16, 16) from rfl,
      show icon_image icon = icon_image "" from rfl]
  exact ⟨by decide, by decide, by decide, by decide⟩

end ChronoCiv
